import Mathlib

/-!
Verification of the weather-service core (`weather_service/utils.py` and
`weather_service/db_utils.py`) against its specification.

Modelling conventions:
* Time is an ambient integer clock in epoch seconds; `datetime.now()`,
  `datetime.utcnow()` and `time.time()` all denote the current instant of
  that clock (timezone representation is not modelled).
* Numeric weather values are rationals; Python dicts flowing through the
  pipeline become structures whose fields are the dict keys.
* The database session is explicit state: a table is a `List` of rows, and
  an operation maps the table (plus its arguments) to the new table.
* Python exceptions are `Except` / an `Option String` error component.
-/

namespace WeatherService

/-- The weather-data record: both the dict built by `fetch_weather_data`
and the `RealtimeWeather` row persisted by `insert_realtime_weather`
(their fields coincide). -/
structure Reading where
  dt : ℤ
  main_condition : String
  temp : ℚ
  feels_like : ℚ
  pressure : ℚ
  humidity : ℚ
  rain : ℚ
  clouds : ℚ
  city : String
deriving DecidableEq

/-- Function `cleanup_old_realtime_weather` (db_utils.py:26-29): deletes every
stored row with `dt < now - timedelta(hours=24)`. -/
def cleanup_old_realtime_weather (now : ℤ) (db : List Reading) : List Reading :=
  db.filter (fun r => !decide (r.dt < now - 86400))

/-- Function `insert_realtime_weather` (db_utils.py:31-47): runs the 24-hour
cleanup, then appends the new row. -/
def insert_realtime_weather (now : ℤ) (db : List Reading) (r : Reading) : List Reading :=
  cleanup_old_realtime_weather now db ++ [r]

/-- C2: on every ingest call the cleanup runs first, deleting exactly the
stored readings strictly older than `now - 24h`; a reading exactly at the
24-hour boundary survives, and the new reading is then persisted. -/
theorem ingest_retention_window (now : ℤ) (db : List Reading) (r x : Reading) :
    x ∈ insert_realtime_weather now db r ↔ (x ∈ db ∧ now - 86400 ≤ x.dt) ∨ x = r := by
  simp [insert_realtime_weather, cleanup_old_realtime_weather, List.mem_append,
    List.mem_filter, not_lt]

/-! ### Fetcher (`utils.py`: `get_lat_lon_for_city`, `fetch_weather_data`) -/

/-- The JSON payload of the weather call, as read by `fetch_weather_data`
(utils.py:88-99).  `rain1h` is `none` when the `rain` object or its `1h`
field is absent (`data.get('rain', {}).get('1h', 0)`); `cloudsAll` is
`none` when the `all` field of the `clouds` object is absent
(`data['clouds'].get('all', 0)`). -/
structure WeatherPayload where
  dt : ℤ
  weatherMain : String
  mainTemp : ℚ
  mainFeelsLike : ℚ
  mainPressure : ℚ
  mainHumidity : ℚ
  rain1h : Option ℚ
  cloudsAll : Option ℚ
deriving DecidableEq

/-- Function `get_lat_lon_for_city` (utils.py:74-81): returns the first geocoding
result's coordinates on HTTP 200, otherwise raises. -/
def get_lat_lon_for_city (status : ℕ) (lat lon : ℚ) : Except String (ℚ × ℚ) :=
  if status = 200 then .ok (lat, lon)
  else .error ("API request failed with status code " ++ toString status)

/-- Function `fetch_weather_data` (utils.py:83-102): geocode, call the provider,
and on HTTP 200 build the weather dict, converting Kelvin to Celsius,
defaulting `rain` and `clouds` to 0, and taking the timestamp from the
payload's `dt`. -/
def fetch_weather_data (geoStatus : ℕ) (lat lon : ℚ) (status : ℕ)
    (p : WeatherPayload) (city : String) : Except String Reading := do
  let _ ← get_lat_lon_for_city geoStatus lat lon
  if status = 200 then
    .ok { dt := p.dt
          main_condition := p.weatherMain
          temp := p.mainTemp - 273.15
          feels_like := p.mainFeelsLike - 273.15
          pressure := p.mainPressure
          humidity := p.mainHumidity
          rain := p.rain1h.getD 0
          clouds := p.cloudsAll.getD 0
          city := city }
  else .error ("API request failed with status code " ++ toString status)

/-- C6: a successful fetch builds the reading with Kelvin-to-Celsius
conversion on both temperature fields, rain and cloud cover defaulting to
0 when absent, and the timestamp taken from the payload's `dt`. -/
theorem fetch_weather_reading_fields (geoStatus status : ℕ) (lat lon : ℚ)
    (p : WeatherPayload) (city : String)
    (hg : geoStatus = 200) (hs : status = 200) :
    fetch_weather_data geoStatus lat lon status p city =
      .ok { dt := p.dt
            main_condition := p.weatherMain
            temp := p.mainTemp - 273.15
            feels_like := p.mainFeelsLike - 273.15
            pressure := p.mainPressure
            humidity := p.mainHumidity
            rain := p.rain1h.getD 0
            clouds := p.cloudsAll.getD 0
            city := city } := by
  subst hg hs
  rfl

/-- Witness for C6, also checking the spec's unit-conversion example:
300.15 K becomes exactly 27 °C, and absent rain / cloud fields become 0. -/
theorem fetch_weather_reading_fields_witness :
    fetch_weather_data 200 10 20 200
      ⟨1700000000, "Rain", 300.15, 280, 1013, 50, none, none⟩ "Delhi" =
      .ok ⟨1700000000, "Rain", 27, (6.85 : ℚ), 1013, 50, 0, 0, "Delhi"⟩ := by
  have h := fetch_weather_reading_fields 200 200 10 20
    ⟨1700000000, "Rain", 300.15, 280, 1013, 50, none, none⟩ "Delhi" rfl rfl
  rw [h]
  norm_num

/-! ### Alert evaluator (`utils.py`: `check_data_against_alerts`, `Thresholds`) -/

/-- The threshold dict consumed by `check_data_against_alerts` and held by
the `Thresholds` class (utils.py:189-210): each of the six metrics maps to
a `[lower, upper]` pair. -/
structure ThresholdSet where
  temp : ℚ × ℚ
  feels_like : ℚ × ℚ
  pressure : ℚ × ℚ
  humidity : ℚ × ℚ
  rain : ℚ × ℚ
  clouds : ℚ × ℚ
deriving DecidableEq

/-- The module-level default `thresholds` object (utils.py:221). -/
def defaultThresholds : ThresholdSet :=
  ⟨(0, 100), (0, 100), (0, 1000), (0, 100), (0, 100), (0, 100)⟩

/-- An `alert_events` row as built by `insert_alert_event`
(db_utils.py:61-70). -/
structure AlertEvent where
  dt : ℤ
  city : String
  trigger : String
  reason : String
deriving DecidableEq

/-- The reason string of an alert, mirroring the f-strings of
`check_data_against_alerts`. -/
def alertReason (label : String) (v : ℚ) (th : ℚ × ℚ) : String :=
  "Found " ++ label ++ ": " ++ toString v ++ " but threshold is [" ++
    toString th.1 ++ ", " ++ toString th.2 ++ "]"

/-- Function `check_data_against_alerts` (utils.py:157-187): six independent checks,
each persisting one alert event when the value is strictly below the lower
or strictly above the upper bound.  The returned list is the sequence of
rows persisted by the `insert_alert_event` calls, in program order. -/
def check_data_against_alerts (w : Reading) (th : ThresholdSet) : List AlertEvent :=
  (if w.temp < th.temp.1 ∨ th.temp.2 < w.temp then
    [⟨w.dt, w.city, "Temperature", alertReason ("temp") w.temp th.temp⟩] else []) ++
  (if w.feels_like < th.feels_like.1 ∨ th.feels_like.2 < w.feels_like then
    [⟨w.dt, w.city, "Feels Like", alertReason ("feels like") w.feels_like th.feels_like⟩] else []) ++
  (if w.pressure < th.pressure.1 ∨ th.pressure.2 < w.pressure then
    [⟨w.dt, w.city, "Pressure", alertReason ("pressure") w.pressure th.pressure⟩] else []) ++
  (if w.humidity < th.humidity.1 ∨ th.humidity.2 < w.humidity then
    [⟨w.dt, w.city, "Humidity", alertReason ("humidity") w.humidity th.humidity⟩] else []) ++
  (if w.rain < th.rain.1 ∨ th.rain.2 < w.rain then
    [⟨w.dt, w.city, "Rain", alertReason ("rain") w.rain th.rain⟩] else []) ++
  (if w.clouds < th.clouds.1 ∨ th.clouds.2 < w.clouds then
    [⟨w.dt, w.city, "Clouds", alertReason ("clouds") w.clouds th.clouds⟩] else [])

/-- The six monitored metrics. -/
inductive Metric where
  | temp | feels_like | pressure | humidity | rain | clouds
deriving DecidableEq

/-- The trigger name the evaluator records for each metric. -/
def Metric.name : Metric → String
  | .temp => "Temperature"
  | .feels_like => "Feels Like"
  | .pressure => "Pressure"
  | .humidity => "Humidity"
  | .rain => "Rain"
  | .clouds => "Clouds"

/-- The reading's value for a metric. -/
def Metric.value (m : Metric) (w : Reading) : ℚ :=
  match m with
  | .temp => w.temp
  | .feels_like => w.feels_like
  | .pressure => w.pressure
  | .humidity => w.humidity
  | .rain => w.rain
  | .clouds => w.clouds

/-- The configured range for a metric. -/
def Metric.range (m : Metric) (th : ThresholdSet) : ℚ × ℚ :=
  match m with
  | .temp => th.temp
  | .feels_like => th.feels_like
  | .pressure => th.pressure
  | .humidity => th.humidity
  | .rain => th.rain
  | .clouds => th.clouds

/-- All six ranges are well-ordered (the ThresholdSet invariant). -/
def wellOrdered (th : ThresholdSet) : Prop :=
  ∀ m : Metric, (m.range th).1 ≤ (m.range th).2

/-- Number of persisted events naming a given metric. -/
def countTrigger (m : Metric) (l : List AlertEvent) : ℕ :=
  l.countP (fun e => e.trigger = m.name)

lemma countP_if_singleton (p : AlertEvent → Bool) (c : Prop) [Decidable c]
    (e : AlertEvent) :
    List.countP p (if c then [e] else []) =
      if c then (if p e then 1 else 0) else 0 := by
  split_ifs with h1 h2 <;>
    simp_all [List.countP_cons, List.countP_nil]

/-- C1: the evaluation persists exactly one event per metric whose value is
strictly outside its inclusive range, none for a value equal to a bound
(given the well-ordered-range invariant), and 0 to 6 events in total. -/
theorem alert_events_per_metric (w : Reading) (th : ThresholdSet)
    (hth : wellOrdered th) :
    (∀ m : Metric, countTrigger m (check_data_against_alerts w th) =
      if m.value w < (m.range th).1 ∨ (m.range th).2 < m.value w then 1 else 0) ∧
    (∀ m : Metric, m.value w = (m.range th).1 ∨ m.value w = (m.range th).2 →
      countTrigger m (check_data_against_alerts w th) = 0) ∧
    (check_data_against_alerts w th).length ≤ 6 := by
  have key : ∀ m : Metric, countTrigger m (check_data_against_alerts w th) =
      if m.value w < (m.range th).1 ∨ (m.range th).2 < m.value w then 1 else 0 := by
    intro m
    cases m <;>
      simp [check_data_against_alerts, countTrigger, Metric.value, Metric.range,
        Metric.name, List.countP_append, countP_if_singleton]
  refine ⟨key, ?_, ?_⟩
  · intro m hm
    rw [key m, if_neg]
    have hlo := hth m
    rintro (hc | hc) <;> rcases hm with h | h <;> linarith
  · simp only [check_data_against_alerts, List.length_append]
    split_ifs <;> simp

/-- Witness for C1: the spec's end-to-end scenario — temperature 105
against the default range [0, 100] yields exactly one Temperature event,
and the boundary value 100 yields none. -/
theorem alert_events_per_metric_witness :
    countTrigger Metric.temp (check_data_against_alerts
      ⟨0, "Clear", 105, 30, 1013, 50, 0, 10, "Delhi"⟩ defaultThresholds) =
      (if (105 : ℚ) < 0 ∨ (100 : ℚ) < 105 then 1 else 0) ∧
    countTrigger Metric.temp (check_data_against_alerts
      ⟨0, "Clear", 100, 30, 1013, 50, 0, 10, "Delhi"⟩ defaultThresholds) = 0 := by
  constructor
  · exact (alert_events_per_metric
      ⟨0, "Clear", 105, 30, 1013, 50, 0, 10, "Delhi"⟩ defaultThresholds
      (by intro m; cases m <;> norm_num [Metric.range, defaultThresholds])).1 Metric.temp
  · exact (alert_events_per_metric
      ⟨0, "Clear", 100, 30, 1013, 50, 0, 10, "Delhi"⟩ defaultThresholds
      (by intro m; cases m <;> norm_num [Metric.range, defaultThresholds])).2.1
      Metric.temp (Or.inr (by norm_num [Metric.value, Metric.range, defaultThresholds]))

/-! ### Threshold administration (`Thresholds.update_thresholds`,
utils.py:212-219, invoked via `save_values` in dash_app_threshold.py:43-51
as `thresholds.update_thresholds(**new_data)`) -/

/-- The TypeError raised by Python when a required parameter is missing. -/
def updateTypeError : String :=
  "TypeError: update_thresholds missing required positional arguments"

/-- Method `Thresholds.update_thresholds` under Python keyword-call semantics:
each of the six parameters is required, so a call supplying only a subset
raises `TypeError` before the body runs; otherwise the six attributes are
replaced with the supplied ranges, with no validation of the values. -/
def update_thresholds (ot of op oh os oc : Option (ℚ × ℚ)) :
    Except String ThresholdSet :=
  match ot, of, op, oh, os, oc with
  | some vt, some vf, some vp, some vh, some vr, some vc =>
      .ok ⟨vt, vf, vp, vh, vr, vc⟩
  | _, _, _, _, _, _ => .error updateTypeError

/-- The threshold set held after an update call against current set `s`:
on a `TypeError` the object is untouched. -/
def apply_update_thresholds (s : ThresholdSet)
    (ot of op oh os oc : Option (ℚ × ℚ)) : ThresholdSet :=
  match update_thresholds ot of op oh os oc with
  | .ok s' => s'
  | .error _ => s

/-- Counterexample to C8 as stated: an update supplying all six metrics
but an inverted temperature range [100, 0] is accepted, and the resulting
set violates the lower ≤ upper invariant. -/
theorem thresholds_update_unvalidated_cex :
    update_thresholds (some (100, 0)) (some (0, 100)) (some (0, 1000))
      (some (0, 100)) (some (0, 100)) (some (0, 100)) =
      .ok ⟨(100, 0), (0, 100), (0, 1000), (0, 100), (0, 100), (0, 100)⟩ ∧
    ¬ wellOrdered ⟨(100, 0), (0, 100), (0, 1000), (0, 100), (0, 100), (0, 100)⟩ := by
  refine ⟨rfl, fun hwo => ?_⟩
  have := hwo Metric.temp
  norm_num [Metric.range] at this

/-- C8 (amended): an update supplying all six metrics replaces the set
wholesale with exactly the supplied ranges (the code performs no
lower ≤ upper validation), and an update supplying only a subset of the
six metrics is rejected with a TypeError and leaves the set unchanged. -/
theorem thresholds_update_amended (s : ThresholdSet) (vt vf vp vh vr vc : ℚ × ℚ)
    (ot of op oh os oc : Option (ℚ × ℚ)) :
    update_thresholds (some vt) (some vf) (some vp) (some vh) (some vr) (some vc) =
      .ok ⟨vt, vf, vp, vh, vr, vc⟩ ∧
    ((ot = none ∨ of = none ∨ op = none ∨ oh = none ∨ os = none ∨ oc = none) →
      update_thresholds ot of op oh os oc = .error updateTypeError ∧
      apply_update_thresholds s ot of op oh os oc = s) := by
  refine ⟨rfl, fun hmiss => ?_⟩
  have herr : update_thresholds ot of op oh os oc = .error updateTypeError := by
    cases ot <;> cases of <;> cases op <;> cases oh <;> cases os <;> cases oc <;>
      first
        | rfl
        | simp_all
  exact ⟨herr, by simp [apply_update_thresholds, herr]⟩

/-- Witness for C8 (amended): a full update replaces the default set, and
an update missing the feels-like range is rejected, leaving the default
set unchanged. -/
theorem thresholds_update_amended_witness :
    update_thresholds (some (1, 2)) (some (1, 2)) (some (1, 2)) (some (1, 2))
      (some (1, 2)) (some (1, 2)) =
      .ok ⟨(1, 2), (1, 2), (1, 2), (1, 2), (1, 2), (1, 2)⟩ ∧
    apply_update_thresholds defaultThresholds (some (1, 2)) none none none none
      none = defaultThresholds := by
  refine ⟨(thresholds_update_amended defaultThresholds (1, 2) (1, 2) (1, 2) (1, 2)
    (1, 2) (1, 2) none none none none none none).1, ?_⟩
  exact ((thresholds_update_amended defaultThresholds (1, 2) (1, 2) (1, 2) (1, 2)
    (1, 2) (1, 2) (some (1, 2)) none none none none none).2
    (Or.inr (Or.inl rfl))).2

/-! ### Result cache (`cache_with_timeout`, utils.py:43-57) -/

/-- One cache entry: the memoized value and the clock value at which it
was stored. -/
structure CacheEntry (α : Type) where
  value : α
  timestamp : ℤ
deriving DecidableEq

/-- Point update of a finite map. -/
def updateMap {κ α : Type} [DecidableEq κ] (m : κ → Option α) (k : κ) (v : α) :
    κ → Option α :=
  fun k' => if k' = k then some v else m k'

/-- One call through the `cache_with_timeout(timeout)` wrapper
(utils.py:43-57).  `cache` is the closure-captured dict keyed by the
argument tuple `k`; `calls` counts invocations of the wrapped `func`.
The clock read when storing (`datetime.utcnow()`) and when comparing
(`datetime.now()`) both denote the ambient instant `now`. -/
def cache_with_timeout {κ α : Type} [DecidableEq κ] (timeout : ℤ) (func : κ → α)
    (cache : κ → Option (CacheEntry α)) (k : κ) (now : ℤ) (calls : ℕ) :
    (κ → Option (CacheEntry α)) × α × ℕ :=
  match cache k with
  | some e =>
      if now - e.timestamp < timeout then (cache, e.value, calls)
      else (updateMap cache k ⟨func k, now⟩, func k, calls + 1)
  | none => (updateMap cache k ⟨func k, now⟩, func k, calls + 1)

/-- C5: a hit within the time-to-live returns the cached value without
invoking the wrapped function; a miss or an expired entry invokes it
exactly once, stores the value with the current time, and returns it. -/
theorem cache_with_timeout_behavior {κ α : Type} [DecidableEq κ] (timeout : ℤ)
    (func : κ → α) (cache : κ → Option (CacheEntry α)) (k : κ) (now : ℤ)
    (calls : ℕ) :
    (∀ e, cache k = some e → now - e.timestamp < timeout →
      cache_with_timeout timeout func cache k now calls = (cache, e.value, calls)) ∧
    ((cache k = none ∨ ∃ e, cache k = some e ∧ timeout ≤ now - e.timestamp) →
      cache_with_timeout timeout func cache k now calls =
        (updateMap cache k ⟨func k, now⟩, func k, calls + 1)) := by
  constructor
  · intro e he hf
    simp [cache_with_timeout, he, hf]
  · rintro (he | ⟨e, he, hst⟩)
    · simp [cache_with_timeout, he]
    · simp [cache_with_timeout, he, not_lt.mpr hst]

/-- Witness for C5: a fresh entry (age 50 < time-to-live 300) is returned
from the cache with the call counter unchanged. -/
theorem cache_with_timeout_behavior_witness :
    cache_with_timeout 300 (fun n => n + 10)
      (fun k : ℕ => if k = 5 then some ⟨15, 50⟩ else none) 5 100 0 =
      ((fun k : ℕ => if k = 5 then some ⟨15, 50⟩ else none), 15, 0) :=
  (cache_with_timeout_behavior 300 (fun n => n + 10)
    (fun k : ℕ => if k = 5 then some ⟨15, 50⟩ else none) 5 100 0).1
    ⟨15, 50⟩ (by simp) (by norm_num)

/-! ### Rate limiter (`rate_limit`, utils.py:128-155) -/

/-- One entry of the shared `request_counts` map: the per-client request
count and the window-start time. -/
structure Window where
  count : ℕ
  timestamp : ℤ
deriving DecidableEq

/-- The outcome a wrapped endpoint produces: the handler's value, or an
`HTTPException(status_code, detail)`. -/
inductive RLResult (α : Type) where
  | ok : α → RLResult α
  | httpError : ℕ → String → RLResult α
deriving DecidableEq

/-- The window arithmetic of the `rate_limit` wrapper body
(utils.py:136-150) for one client: create the window with count 0 and
start `now` if absent, reset it to count 0 and start `now` if more than
`interval` seconds have elapsed since its start, then increment the count;
the request is admitted iff the count does not exceed `limit`. -/
def rateLimitStep (limit : ℕ) (interval : ℤ) (w : Option Window) (now : ℤ) :
    Window × Bool :=
  let w1 := w.getD ⟨0, now⟩
  let w2 := if interval < now - w1.timestamp then (⟨0, now⟩ : Window) else w1
  let w3 : Window := ⟨w2.count + 1, w2.timestamp⟩
  (w3, decide (w3.count ≤ limit))

/-- One request through the `rate_limit(limit, interval)` wrapper
(utils.py:128-155): step the client's window in the shared map, then
either invoke the wrapped handler or answer 429 "Rate limit exceeded"
without invoking it.  `calls` counts handler invocations. -/
def rate_limit {α : Type} (limit : ℕ) (interval : ℤ) (handler : ℕ → α)
    (m : String → Option Window) (ip : String) (now : ℤ) (calls : ℕ) :
    (String → Option Window) × RLResult α × ℕ :=
  match rateLimitStep limit interval (m ip) now with
  | (w, allowed) =>
      if allowed then (updateMap m ip w, .ok (handler calls), calls + 1)
      else (updateMap m ip w, .httpError 429 "Rate limit exceeded", calls)

/-- A sequence of requests by one client at the given times. -/
def rateLimitRun {α : Type} (limit : ℕ) (interval : ℤ) (handler : ℕ → α) :
    (String → Option Window) → String → List ℤ → ℕ →
    (String → Option Window) × List (RLResult α) × ℕ
  | m, _, [], calls => (m, [], calls)
  | m, ip, t :: ts, calls =>
      ((rateLimitRun limit interval handler
          (rate_limit limit interval handler m ip t calls).1 ip ts
          (rate_limit limit interval handler m ip t calls).2.2).1,
       (rate_limit limit interval handler m ip t calls).2.1 ::
        (rateLimitRun limit interval handler
          (rate_limit limit interval handler m ip t calls).1 ip ts
          (rate_limit limit interval handler m ip t calls).2.2).2.1,
       (rateLimitRun limit interval handler
          (rate_limit limit interval handler m ip t calls).1 ip ts
          (rate_limit limit interval handler m ip t calls).2.2).2.2)

lemma rangeMapShiftAdmit {α : Type} (handler : ℕ → α) (n limit c calls : ℕ)
    (hadm : c + 1 ≤ limit) :
    (List.range (n + 1)).map (fun j =>
        if c + j + 1 ≤ limit then RLResult.ok (handler (calls + min j (limit - c)))
        else RLResult.httpError 429 "Rate limit exceeded") =
      RLResult.ok (handler calls) ::
        (List.range n).map (fun j =>
          if c + 1 + j + 1 ≤ limit then
            RLResult.ok (handler (calls + 1 + min j (limit - (c + 1))))
          else RLResult.httpError 429 "Rate limit exceeded") := by
  rw [List.range_succ_eq_map]
  simp only [List.map_cons, List.map_map, Function.comp]
  refine congrArg₂ List.cons ?_ ?_
  · rw [if_pos (by omega)]
    simp
  · refine List.map_congr_left fun j _ => ?_
    simp only [Function.comp_apply, Nat.succ_eq_add_one]
    by_cases hc : c + 1 + j + 1 ≤ limit
    · rw [if_pos (show c + (j + 1) + 1 ≤ limit by omega), if_pos hc]
      exact congrArg (fun x => RLResult.ok (handler x)) (by omega)
    · rw [if_neg (show ¬ c + (j + 1) + 1 ≤ limit by omega), if_neg hc]

lemma rangeMapShiftReject {α : Type} (handler : ℕ → α) (n limit c calls : ℕ)
    (hrej : limit < c + 1) :
    (List.range (n + 1)).map (fun j =>
        if c + j + 1 ≤ limit then RLResult.ok (handler (calls + min j (limit - c)))
        else RLResult.httpError 429 "Rate limit exceeded") =
      RLResult.httpError 429 "Rate limit exceeded" ::
        (List.range n).map (fun j =>
          if c + 1 + j + 1 ≤ limit then
            RLResult.ok (handler (calls + min j (limit - (c + 1))))
          else RLResult.httpError 429 "Rate limit exceeded") := by
  rw [List.range_succ_eq_map]
  simp only [List.map_cons, List.map_map, Function.comp]
  refine congrArg₂ List.cons ?_ ?_
  · rw [if_neg (show ¬ c + 0 + 1 ≤ limit by omega)]
  · refine List.map_congr_left fun j _ => ?_
    simp only [Function.comp_apply, Nat.succ_eq_add_one]
    rw [if_neg (show ¬ c + (j + 1) + 1 ≤ limit by omega),
      if_neg (show ¬ c + 1 + j + 1 ≤ limit by omega)]

/-- The behaviour of a request sequence whose times all lie within
`interval` of the client's current window start `t0`: no reset occurs, the
count keeps incrementing, and request `j` is admitted iff the incremented
count stays at or below the limit. -/
lemma rateLimitRun_in_window {α : Type} (limit : ℕ) (interval : ℤ)
    (handler : ℕ → α) (ip : String) :
    ∀ (ts : List ℤ) (c : ℕ) (t0 : ℤ) (m : String → Option Window) (calls : ℕ),
      m ip = some ⟨c, t0⟩ → (∀ t ∈ ts, t - t0 ≤ interval) →
      (rateLimitRun limit interval handler m ip ts calls).2.1 =
        (List.range ts.length).map (fun j =>
          if c + j + 1 ≤ limit then RLResult.ok (handler (calls + min j (limit - c)))
          else RLResult.httpError 429 "Rate limit exceeded") ∧
      (rateLimitRun limit interval handler m ip ts calls).2.2 =
        calls + min ts.length (limit - c) ∧
      (rateLimitRun limit interval handler m ip ts calls).1 ip =
        some ⟨c + ts.length, t0⟩ := by
  intro ts
  induction ts with
  | nil =>
    intro c t0 m calls hm _
    exact ⟨rfl, by simp [rateLimitRun], by simpa [rateLimitRun] using hm⟩
  | cons t ts ih =>
    intro c t0 m calls hm hw
    have hnr : ¬ interval < t - t0 := not_lt.mpr (hw t (List.mem_cons_self t ts))
    have hstep : rateLimitStep limit interval (m ip) t =
        (⟨c + 1, t0⟩, decide (c + 1 ≤ limit)) := by
      simp [rateLimitStep, hm, hnr]
    have hmem : ∀ t' ∈ ts, t' - t0 ≤ interval :=
      fun t' ht' => hw t' (List.mem_cons_of_mem _ ht')
    have hm' : updateMap m ip ⟨c + 1, t0⟩ ip = some ⟨c + 1, t0⟩ := by
      simp [updateMap]
    by_cases hadm : c + 1 ≤ limit
    · have hcall : rate_limit limit interval handler m ip t calls =
          (updateMap m ip ⟨c + 1, t0⟩, .ok (handler calls), calls + 1) := by
        simp [rate_limit, hstep, hadm]
      obtain ⟨ih1, ih2, ih3⟩ :=
        ih (c + 1) t0 (updateMap m ip ⟨c + 1, t0⟩) (calls + 1) hm' hmem
      refine ⟨?_, ?_, ?_⟩
      · simp only [rateLimitRun, hcall, List.length_cons]
        rw [ih1, rangeMapShiftAdmit handler ts.length limit c calls hadm]
      · simp only [rateLimitRun, hcall, List.length_cons]
        rw [ih2]
        omega
      · simp only [rateLimitRun, hcall, List.length_cons]
        rw [ih3]
        have : c + 1 + ts.length = c + (ts.length + 1) := by omega
        rw [this]
    · have hcall : rate_limit limit interval handler m ip t calls =
          (updateMap m ip ⟨c + 1, t0⟩, .httpError 429 "Rate limit exceeded",
            calls) := by
        simp [rate_limit, hstep, hadm]
      obtain ⟨ih1, ih2, ih3⟩ :=
        ih (c + 1) t0 (updateMap m ip ⟨c + 1, t0⟩) calls hm' hmem
      refine ⟨?_, ?_, ?_⟩
      · simp only [rateLimitRun, hcall, List.length_cons]
        rw [ih1, rangeMapShiftReject handler ts.length limit c calls (by omega)]
      · simp only [rateLimitRun, hcall, List.length_cons]
        rw [ih2]
        omega
      · simp only [rateLimitRun, hcall, List.length_cons]
        rw [ih3]
        have : c + 1 + ts.length = c + (ts.length + 1) := by omega
        rw [this]

lemma rangeMapFirst {α : Type} (handler : ℕ → α) (n limit : ℕ) (hlim : 1 ≤ limit) :
    RLResult.ok (handler 0) ::
      (List.range n).map (fun j =>
        if 1 + j + 1 ≤ limit then RLResult.ok (handler (1 + min j (limit - 1)))
        else RLResult.httpError 429 "Rate limit exceeded") =
      (List.range (n + 1)).map (fun i =>
        if i + 1 ≤ limit then RLResult.ok (handler i)
        else RLResult.httpError 429 "Rate limit exceeded") := by
  rw [List.range_succ_eq_map]
  simp only [List.map_cons, List.map_map]
  refine congrArg₂ List.cons ?_ ?_
  · rw [if_pos (show 0 + 1 ≤ limit by omega)]
  · refine List.map_congr_left fun j _ => ?_
    simp only [Function.comp_apply, Nat.succ_eq_add_one]
    by_cases hc : 1 + j + 1 ≤ limit
    · rw [if_pos hc, if_pos (show j + 1 + 1 ≤ limit by omega)]
      exact congrArg (fun x => RLResult.ok (handler x)) (by omega)
    · rw [if_neg hc, if_neg (show ¬ j + 1 + 1 ≤ limit by omega)]

/-- C4: starting from an empty map, a client's calls at times all within
`interval` of the first call's time `t0` are admitted for exactly the
first `limit` of them and answered 429 afterwards, the handler being
invoked exactly `min (n+1) limit` times; and a call more than `interval`
after a window's start restarts the window with count 1 and is admitted. -/
theorem rate_limit_window_behavior {α : Type} (limit : ℕ) (interval : ℤ)
    (handler : ℕ → α) (ip : String) (t0 : ℤ) (ts : List ℤ)
    (hlim : 1 ≤ limit) (hwin : ∀ t ∈ ts, t - t0 ≤ interval) :
    (rateLimitRun limit interval handler (fun _ => none) ip (t0 :: ts) 0).2.1 =
      (List.range (ts.length + 1)).map (fun i =>
        if i + 1 ≤ limit then RLResult.ok (handler i)
        else RLResult.httpError 429 "Rate limit exceeded") ∧
    (rateLimitRun limit interval handler (fun _ => none) ip (t0 :: ts) 0).2.2 =
      min (ts.length + 1) limit ∧
    (∀ (c : ℕ) (s t' : ℤ), interval < t' - s →
      rateLimitStep limit interval (some ⟨c, s⟩) t' = (⟨1, t'⟩, true)) := by
  have hstep0 : rateLimitStep limit interval
      ((fun _ => none : String → Option Window) ip) t0 =
      (⟨1, t0⟩, decide (1 ≤ limit)) := by
    simp [rateLimitStep]
  have hcall : rate_limit limit interval handler (fun _ => none) ip t0 0 =
      (updateMap (fun _ => none) ip ⟨1, t0⟩, .ok (handler 0), 1) := by
    simp [rate_limit, hstep0, hlim]
  obtain ⟨h1, h2, h3⟩ := rateLimitRun_in_window limit interval handler ip ts 1 t0
    (updateMap (fun _ => none) ip ⟨1, t0⟩) 1 (by simp [updateMap]) hwin
  refine ⟨?_, ?_, ?_⟩
  · simp only [rateLimitRun, hcall]
    rw [h1]
    exact rangeMapFirst handler ts.length limit hlim
  · simp only [rateLimitRun, hcall, List.length_cons]
    rw [h2]
    omega
  · intro c s t' hgt
    simp [rateLimitStep, hgt, hlim]

/-- Witness for C4: limit 2, interval 10, calls at times 0, 1, 2 — the
first two are served, the third gets a 429. -/
theorem rate_limit_window_behavior_witness :
    (rateLimitRun 2 10 (fun n : ℕ => n) (fun _ => none) "1.2.3.4" [0, 1, 2] 0).2.1 =
      [RLResult.ok 0, RLResult.ok 1,
        RLResult.httpError 429 "Rate limit exceeded"] := by
  have h := (rate_limit_window_behavior 2 10 (fun n : ℕ => n) "1.2.3.4" 0 [1, 2]
    (by norm_num) (by decide)).1
  rw [h]
  rfl

/-- C10: once a client's window count has passed the limit, every further
call within `interval` of the window start is answered 429 with the
handler never invoked, and the count keeps growing (a rejection never
decrements it). -/
theorem rate_limit_rejection_sticky {α : Type} (limit : ℕ) (interval : ℤ)
    (handler : ℕ → α) (m : String → Option Window) (ip : String) (c : ℕ) (s : ℤ)
    (ts : List ℤ) (calls : ℕ) (hm : m ip = some ⟨c, s⟩) (hc : limit < c)
    (hwin : ∀ t ∈ ts, t - s ≤ interval) :
    (rateLimitRun limit interval handler m ip ts calls).2.1 =
      List.replicate ts.length (RLResult.httpError 429 "Rate limit exceeded") ∧
    (rateLimitRun limit interval handler m ip ts calls).2.2 = calls ∧
    (rateLimitRun limit interval handler m ip ts calls).1 ip =
      some ⟨c + ts.length, s⟩ := by
  obtain ⟨h1, h2, h3⟩ :=
    rateLimitRun_in_window limit interval handler ip ts c s m calls hm hwin
  refine ⟨?_, ?_, h3⟩
  · rw [h1, List.eq_replicate_iff]
    refine ⟨by simp, fun b hb => ?_⟩
    simp only [List.mem_map, List.mem_range] at hb
    obtain ⟨j, hj, rfl⟩ := hb
    exact if_neg (by omega)
  · rw [h2]
    omega

/-- Witness for C10: a client already at count 3 with limit 2 keeps being
rejected at in-window times 1 and 2, the handler counter stays at 7, and
the count grows to 5. -/
theorem rate_limit_rejection_sticky_witness :
    (rateLimitRun 2 10 (fun n : ℕ => n)
        (fun k => if k = "a" then some ⟨3, 0⟩ else none) "a" [1, 2] 7).2.1 =
      List.replicate 2 (RLResult.httpError 429 "Rate limit exceeded") ∧
    (rateLimitRun 2 10 (fun n : ℕ => n)
        (fun k => if k = "a" then some ⟨3, 0⟩ else none) "a" [1, 2] 7).2.2 = 7 ∧
    (rateLimitRun 2 10 (fun n : ℕ => n)
        (fun k => if k = "a" then some ⟨3, 0⟩ else none) "a" [1, 2] 7).1 "a" =
      some ⟨5, 0⟩ :=
  rate_limit_rejection_sticky 2 10 (fun n : ℕ => n)
    (fun k => if k = "a" then some ⟨3, 0⟩ else none) "a" 3 0 [1, 2] 7
    (by simp) (by norm_num) (by decide)

/-! ### Ingest error propagation (`insert_fetched_data`, utils.py:104-119,
and `insert_realtime_weather`, db_utils.py:31-47) -/

/-- Function `insert_realtime_weather` with its two fallible persistence steps made
explicit: `cleanupFails` models `cleanup_old_realtime_weather` raising a
storage error (in which case the body never reaches the insert), and
`insertFails` models the `session.add`/`session.commit` of the new row
raising.  The result pairs the table state with the exception propagated
to the caller (`none` = success). -/
def insert_realtime_weather_run (cleanupFails insertFails : Bool) (now : ℤ)
    (db : List Reading) (r : Reading) : List Reading × Option String :=
  if cleanupFails then (db, some ("StorageError: cleanup failed"))
  else if insertFails then
    (cleanup_old_realtime_weather now db, some ("StorageError: insert failed"))
  else (insert_realtime_weather now db r, none)

/-- Function `insert_fetched_data` (utils.py:104-119): awaits the insert and
catches any exception, printing the failure with the affected city.  The
result pairs the table state with the log lines printed. -/
def insert_fetched_data (cleanupFails insertFails : Bool) (now : ℤ)
    (db : List Reading) (r : Reading) : List Reading × List String :=
  match insert_realtime_weather_run cleanupFails insertFails now db r with
  | (db', some e) => (db', ["Failed to insert data for " ++ r.city ++ ": " ++ e])
  | (db', none) => (db', [])

/-- C7: a cleanup failure fails the whole ingest call with the table
untouched (the insert is never attempted); an insert failure is propagated
rather than reported as success (no new row is appended); and every
propagated failure is logged by the caller with the affected city. -/
theorem ingest_failure_propagation (cleanupFails insertFails : Bool) (now : ℤ)
    (db : List Reading) (r : Reading) :
    (cleanupFails = true →
      insert_realtime_weather_run cleanupFails insertFails now db r =
        (db, some ("StorageError: cleanup failed"))) ∧
    (cleanupFails = false → insertFails = true →
      insert_realtime_weather_run cleanupFails insertFails now db r =
        (cleanup_old_realtime_weather now db, some ("StorageError: insert failed"))) ∧
    (∀ e, (insert_realtime_weather_run cleanupFails insertFails now db r).2 = some e →
      (insert_fetched_data cleanupFails insertFails now db r).2 =
        ["Failed to insert data for " ++ r.city ++ ": " ++ e]) := by
  refine ⟨fun hc => by simp [insert_realtime_weather_run, hc],
    fun hc hi => by simp [insert_realtime_weather_run, hc, hi], fun e he => ?_⟩
  cases cleanupFails <;> cases insertFails <;>
    simp_all [insert_realtime_weather_run, insert_fetched_data]

/-- Witness for C7: with the cleanup succeeding and the insert failing,
the ingest call returns the storage error rather than success. -/
theorem ingest_failure_propagation_witness :
    insert_realtime_weather_run false true 0 []
        ⟨0, "Clear", 1, 1, 1, 1, 0, 0, "X"⟩ =
      (cleanup_old_realtime_weather 0 [], some ("StorageError: insert failed")) :=
  (ingest_failure_propagation false true 0 []
    ⟨0, "Clear", 1, 1, 1, 1, 0, 0, "X"⟩).2.1 rfl rfl

/-! ### Daily summaries -/

/-- A `daily_weather` row as produced by `aggregate_daily_weather`
(db_utils.py:93-101). -/
structure DailyWeather where
  date : ℤ
  city : String
  avg_temp : ℚ
  max_temp : ℚ
  min_temp : ℚ
  dom_condition : String
deriving DecidableEq

/-! ### Historical export (`get_historical_data`, db_utils.py:110-113) -/

/-- A Python value appearing in a row's `__dict__`. -/
inductive PyVal where
  | num : ℚ → PyVal
  | str : String → PyVal
  | pyDate : ℤ → PyVal
  | instState : PyVal
deriving DecidableEq

/-- Python `json.dumps` on one value with no `default=` fallback: a
`datetime.date` or a SQLAlchemy `InstanceState` raises `TypeError`. -/
def dumpVal : PyVal → Except String String
  | .num q => .ok (toString q)
  | .str s => .ok ("\"" ++ s ++ "\"")
  | .pyDate _ => .error ("TypeError: Object of type date is not JSON serializable")
  | .instState =>
      .error ("TypeError: Object of type InstanceState is not JSON serializable")

def dumpPair : String × PyVal → Except String String
  | (k, v) => do
      let sv ← dumpVal v
      pure ("\"" ++ k ++ "\": " ++ sv)

def dumpObj (l : List (String × PyVal)) : Except String String := do
  let parts ← l.mapM dumpPair
  pure ("\x7b" ++ String.intercalate (", ") parts ++ "\x7d")

/-- Python `json.dumps` on a list of dicts, with no `default=` fallback. -/
def json_dumps (rows : List (List (String × PyVal))) : Except String String := do
  let objs ← rows.mapM dumpObj
  pure ("[" ++ String.intercalate (", ") objs ++ "]")

/-- The `__dict__` of a loaded `DailyWeather` ORM instance: the mapped
columns plus the `_sa_instance_state` bookkeeping entry — the same entry
`get_realtime_data` (db_utils.py:120-121) pops explicitly before
serializing, which `get_historical_data` does not. -/
def rowInstanceDict (x : DailyWeather) : List (String × PyVal) :=
  [("_sa_instance_state", .instState),
   ("date", .pyDate x.date),
   ("city", .str x.city),
   ("avg_temp", .num x.avg_temp),
   ("max_temp", .num x.max_temp),
   ("min_temp", .num x.min_temp),
   ("dom_condition", .str x.dom_condition)]

/-- Function `get_historical_data` (db_utils.py:110-113):
`json.dumps([data.__dict__ for data in historical_data])` — no metadata
stripping, no `default=` fallback. -/
def get_historical_data (db : List DailyWeather) : Except String String :=
  json_dumps (db.map rowInstanceDict)

/-- C9 (code bug): the serialized dict of a stored row still carries the
`_sa_instance_state` storage-metadata key, and on any non-empty table the
export raises a `TypeError` instead of returning the six-field JSON
array. -/
theorem historical_export_metadata_bug :
    "_sa_instance_state" ∈
      (rowInstanceDict ⟨0, "Delhi", 20, 25, 15, "Clear"⟩).map Prod.fst ∧
    get_historical_data [⟨0, "Delhi", 20, 25, 15, "Clear"⟩] =
      .error ("TypeError: Object of type InstanceState is not JSON serializable") := by
  exact ⟨by simp [rowInstanceDict], rfl⟩

/-! ### Daily aggregation (`aggregate_daily_weather`, db_utils.py:72-104) -/

/-- The query filter `start_time <= dt <= end_time` for day `d`
(db_utils.py:85-87), with `time.min`/`time.max` spanning the whole day in
whole seconds. -/
def inDay (d : ℤ) (r : Reading) : Bool :=
  decide (d * 86400 ≤ r.dt) && decide (r.dt ≤ d * 86400 + 86399)

/-- SQL `func.date` on an epoch-seconds timestamp: the day index. -/
def dateOf (dt : ℤ) : ℤ := Int.fdiv dt 86400

/-- The distinct `GROUP BY (city, date)` keys of the day's readings. -/
def groupKeys (d : ℤ) (db : List Reading) : List (String × ℤ) :=
  ((db.filter (inDay d)).map (fun r => (r.city, dateOf r.dt))).dedup

def maxOfList : List ℚ → ℚ
  | [] => 0
  | x :: xs => xs.foldl max x

def minOfList : List ℚ → ℚ
  | [] => 0
  | x :: xs => xs.foldl min x

def maxStrList : List String → String
  | [] => ""
  | x :: xs => xs.foldl max x

/-- The SELECT row of the aggregation query for one group key
(db_utils.py:78-91): average, maximum and minimum temperature and the
maximum condition string over the day's readings of that (city, date). -/
def summarize (d : ℤ) (db : List Reading) (key : String × ℤ) : DailyWeather :=
  let rs := (db.filter (inDay d)).filter (fun r => decide ((r.city, dateOf r.dt) = key))
  let temps := rs.map (fun r => r.temp)
  { date := key.2
    city := key.1
    avg_temp := temps.sum / (temps.length : ℚ)
    max_temp := maxOfList temps
    min_temp := minOfList temps
    dom_condition := maxStrList (rs.map (fun r => r.main_condition)) }

/-- The identity of a `daily_weather` row. -/
def rowKey (x : DailyWeather) : String × ℤ := (x.city, x.date)

/-- Modelled from the spec: `session.merge(daily_weather)`
(db_utils.py:102) upserts by the `DailyWeather` row identity, which the
spec fixes as the (city, date) pair ("a (city, date) pair that already has
a summary is replaced, not duplicated"); `db_models.py`, which declares
the primary key, is not among the sources. -/
def mergeRow (db : List DailyWeather) (row : DailyWeather) : List DailyWeather :=
  if rowKey row ∈ db.map rowKey then
    db.map (fun x => if rowKey x = rowKey row then row else x)
  else db ++ [row]

/-- Function `aggregate_daily_weather` (db_utils.py:72-104): compute the day's
group rows and merge each into the `daily_weather` table. -/
def aggregate_daily_weather (today : ℤ) (rt : List Reading)
    (daily : List DailyWeather) : List DailyWeather :=
  ((groupKeys today rt).map (summarize today rt)).foldl mergeRow daily

/-- The table never holds two rows with the same (city, date) — the
primary-key invariant of `daily_weather`. -/
def keyNodup (db : List DailyWeather) : Prop := (db.map rowKey).Nodup

lemma mem_mergeRow {db : List DailyWeather} {row x : DailyWeather}
    (hx : x ∈ mergeRow db row) : x = row ∨ x ∈ db := by
  unfold mergeRow at hx
  split_ifs at hx with h
  · obtain ⟨y, hy, hxy⟩ := List.mem_map.1 hx
    by_cases hk : rowKey y = rowKey row
    · rw [if_pos hk] at hxy
      exact Or.inl hxy.symm
    · rw [if_neg hk] at hxy
      exact Or.inr (hxy ▸ hy)
  · rcases List.mem_append.1 hx with h1 | h1
    · exact Or.inr h1
    · exact Or.inl (List.mem_singleton.1 h1)

lemma mergeRow_key_mem (db : List DailyWeather) (row : DailyWeather) :
    rowKey row ∈ (mergeRow db row).map rowKey := by
  unfold mergeRow
  split_ifs with h
  · obtain ⟨y, hy, hk⟩ := List.mem_map.1 h
    refine List.mem_map.2 ⟨if rowKey y = rowKey row then row else y,
      List.mem_map.2 ⟨y, hy, rfl⟩, ?_⟩
    rw [if_pos hk]
  · simp

lemma mergeRow_preserves_key_mem {db : List DailyWeather} {k : String × ℤ}
    (row : DailyWeather) (hk : k ∈ db.map rowKey) :
    k ∈ (mergeRow db row).map rowKey := by
  unfold mergeRow
  split_ifs with h
  · obtain ⟨y, hy, hky⟩ := List.mem_map.1 hk
    refine List.mem_map.2 ⟨if rowKey y = rowKey row then row else y,
      List.mem_map.2 ⟨y, hy, rfl⟩, ?_⟩
    split_ifs with hyk
    · rw [← hyk]
      exact hky
    · exact hky
  · rw [List.map_append]
    exact List.mem_append_left _ hk

lemma mergeRow_all_key (db : List DailyWeather) (row : DailyWeather) :
    ∀ x ∈ mergeRow db row, rowKey x = rowKey row → x = row := by
  intro x hx hkx
  unfold mergeRow at hx
  split_ifs at hx with h
  · obtain ⟨y, hy, hxy⟩ := List.mem_map.1 hx
    by_cases hk : rowKey y = rowKey row
    · rw [if_pos hk] at hxy
      exact hxy.symm
    · rw [if_neg hk] at hxy
      cases hxy
      exact absurd hkx hk
  · rcases List.mem_append.1 hx with h1 | h1
    · exact absurd (List.mem_map.2 ⟨x, h1, hkx⟩) h
    · exact List.mem_singleton.1 h1

lemma mergeRow_preserve_all {db : List DailyWeather} {row r0 : DailyWeather}
    {k : String × ℤ} (hk : rowKey row ≠ k)
    (hall : ∀ x ∈ db, rowKey x = k → x = r0) :
    ∀ x ∈ mergeRow db row, rowKey x = k → x = r0 := by
  intro x hx hkx
  rcases mem_mergeRow hx with rfl | hxdb
  · exact absurd hkx hk
  · exact hall x hxdb hkx

lemma mergeRow_id {db : List DailyWeather} {row : DailyWeather}
    (hmem : rowKey row ∈ db.map rowKey)
    (hall : ∀ x ∈ db, rowKey x = rowKey row → x = row) :
    mergeRow db row = db := by
  unfold mergeRow
  rw [if_pos hmem]
  have hpt : ∀ x ∈ db, (if rowKey x = rowKey row then row else x) = x := by
    intro x hx
    split_ifs with h
    · exact (hall x hx h).symm
    · rfl
  rw [List.map_congr_left hpt]
  simp

lemma mergeRow_keyNodup {db : List DailyWeather} {row : DailyWeather}
    (h : keyNodup db) : keyNodup (mergeRow db row) := by
  unfold keyNodup mergeRow
  split_ifs with hmem
  · rw [List.map_map]
    have hpt : ∀ x ∈ db,
        (rowKey ∘ fun x => if rowKey x = rowKey row then row else x) x = rowKey x := by
      intro x hx
      simp only [Function.comp_apply]
      split_ifs with hk
      · exact hk.symm
      · rfl
    rw [List.map_congr_left hpt]
    exact h
  · rw [List.map_append]
    have hdisj : (List.map rowKey db).Disjoint (List.map rowKey [row]) := by
      intro a ha hb
      simp only [List.map_cons, List.map_nil, List.mem_singleton] at hb
      exact hmem (hb ▸ ha)
    rw [List.nodup_append]
    exact ⟨h, by simp, hdisj⟩

lemma foldl_mergeRow_keyNodup :
    ∀ (rows : List DailyWeather) (D : List DailyWeather), keyNodup D →
      keyNodup (rows.foldl mergeRow D) := by
  intro rows
  induction rows with
  | nil => exact fun D h => h
  | cons r rs ih =>
    intro D h
    simp only [List.foldl_cons]
    exact ih _ (mergeRow_keyNodup h)

lemma foldl_mergeRow_key_mem :
    ∀ (rows : List DailyWeather) (D : List DailyWeather) (k : String × ℤ),
      k ∈ D.map rowKey → k ∈ (rows.foldl mergeRow D).map rowKey := by
  intro rows
  induction rows with
  | nil => exact fun D k h => h
  | cons r rs ih =>
    intro D k h
    simp only [List.foldl_cons]
    exact ih _ _ (mergeRow_preserves_key_mem r h)

lemma foldl_mergeRow_preserve_all :
    ∀ (rows : List DailyWeather) (D : List DailyWeather) (r0 : DailyWeather)
      (k : String × ℤ), (∀ r ∈ rows, rowKey r ≠ k) →
      (∀ x ∈ D, rowKey x = k → x = r0) →
      ∀ x ∈ rows.foldl mergeRow D, rowKey x = k → x = r0 := by
  intro rows
  induction rows with
  | nil => exact fun D r0 k _ hall => hall
  | cons r rs ih =>
    intro D r0 k hk hall
    simp only [List.foldl_cons]
    exact ih _ r0 k (fun r' hr' => hk r' (List.mem_cons_of_mem _ hr'))
      (mergeRow_preserve_all (hk r (List.mem_cons_self r rs)) hall)

lemma foldl_mergeRow_row_key_mem :
    ∀ (rows : List DailyWeather) (D : List DailyWeather) (r : DailyWeather),
      r ∈ rows → rowKey r ∈ (rows.foldl mergeRow D).map rowKey := by
  intro rows
  induction rows with
  | nil => intro D r hr; cases hr
  | cons a rs ih =>
    intro D r hr
    simp only [List.foldl_cons]
    rcases List.mem_cons.1 hr with rfl | hr'
    · exact foldl_mergeRow_key_mem rs (mergeRow D r) (rowKey r) (mergeRow_key_mem D r)
    · exact ih _ r hr'

/-- Re-merging a list of key-distinct rows into a table that already
absorbed them is the identity. -/
lemma foldl_mergeRow_idem :
    ∀ (rows : List DailyWeather), (rows.map rowKey).Nodup →
      ∀ D : List DailyWeather,
        rows.foldl mergeRow (rows.foldl mergeRow D) = rows.foldl mergeRow D := by
  intro rows
  induction rows with
  | nil => exact fun _ D => rfl
  | cons r rs ih =>
    intro hnd D
    rw [List.map_cons] at hnd
    have hknotin : rowKey r ∉ rs.map rowKey := (List.nodup_cons.1 hnd).1
    have hnd' : (rs.map rowKey).Nodup := (List.nodup_cons.1 hnd).2
    simp only [List.foldl_cons]
    have hall2 : ∀ x ∈ rs.foldl mergeRow (mergeRow D r),
        rowKey x = rowKey r → x = r :=
      foldl_mergeRow_preserve_all rs (mergeRow D r) r (rowKey r)
        (fun r' hr' hkeq => hknotin (hkeq ▸ List.mem_map.2 ⟨r', hr', rfl⟩))
        (mergeRow_all_key D r)
    have hmem2 : rowKey r ∈ (rs.foldl mergeRow (mergeRow D r)).map rowKey :=
      foldl_mergeRow_key_mem rs (mergeRow D r) (rowKey r) (mergeRow_key_mem D r)
    rw [mergeRow_id hmem2 hall2]
    exact ih hnd' (mergeRow D r)

lemma countP_eq_one_of_nodup_mem {α : Type} [DecidableEq α] {l : List α} {k : α}
    (hnd : l.Nodup) (hm : k ∈ l) : l.countP (fun x => decide (x = k)) = 1 := by
  induction l with
  | nil => cases hm
  | cons a l ih =>
    rw [List.countP_cons]
    rcases List.mem_cons.1 hm with rfl | hm'
    · have hknot : k ∉ l := (List.nodup_cons.1 hnd).1
      have h0 : l.countP (fun x => decide (x = k)) = 0 :=
        List.countP_eq_zero.2 (fun x hx => by
          simp only [decide_eq_true_eq]
          rintro rfl
          exact hknot hx)
      simp [h0]
    · have h1 := ih (List.nodup_cons.1 hnd).2 hm'
      have ha : ¬ (a = k) := fun he => (List.nodup_cons.1 hnd).1 (he ▸ hm')
      simp [h1, ha]

lemma rowKey_summarize (today : ℤ) (rt : List Reading) (k : String × ℤ) :
    rowKey (summarize today rt k) = k := by
  simp [rowKey, summarize]

lemma rows_keys (today : ℤ) (rt : List Reading) :
    (((groupKeys today rt).map (summarize today rt)).map rowKey) =
      groupKeys today rt := by
  rw [List.map_map]
  have hpt : ∀ k ∈ groupKeys today rt,
      (rowKey ∘ summarize today rt) k = k := by
    intro k _
    simp only [Function.comp_apply]
    exact rowKey_summarize today rt k
  rw [List.map_congr_left hpt]
  simp

/-- C3: with the primary-key invariant on the existing table, running the
daily aggregation twice with the same readings leaves the table exactly as
after the first run, and every (city, date) pair observed that day has
exactly one summary row. -/
theorem aggregate_daily_idempotent (today : ℤ) (rt : List Reading)
    (daily : List DailyWeather) (h : keyNodup daily) :
    aggregate_daily_weather today rt (aggregate_daily_weather today rt daily) =
      aggregate_daily_weather today rt daily ∧
    ∀ k ∈ groupKeys today rt,
      ((aggregate_daily_weather today rt daily).map rowKey).countP
        (fun x => decide (x = k)) = 1 := by
  have hndrows : ((((groupKeys today rt).map (summarize today rt))).map rowKey).Nodup := by
    rw [rows_keys]
    exact List.nodup_dedup _
  constructor
  · exact foldl_mergeRow_idem _ hndrows daily
  · intro k hk
    have hnd : keyNodup (aggregate_daily_weather today rt daily) :=
      foldl_mergeRow_keyNodup _ daily h
    have hmem : k ∈ (aggregate_daily_weather today rt daily).map rowKey := by
      have hrow : summarize today rt k ∈ (groupKeys today rt).map (summarize today rt) :=
        List.mem_map.2 ⟨k, hk, rfl⟩
      have := foldl_mergeRow_row_key_mem _ daily _ hrow
      rwa [rowKey_summarize] at this
    exact countP_eq_one_of_nodup_mem hnd hmem

/-- Witness for C3: two same-day readings for one city aggregated twice
from an empty summary table. -/
theorem aggregate_daily_idempotent_witness :
    aggregate_daily_weather 0
        [⟨100, "Clear", 10, 10, 1000, 50, 0, 0, "Delhi"⟩,
         ⟨200, "Rain", 20, 20, 1000, 50, 0, 0, "Delhi"⟩]
        (aggregate_daily_weather 0
          [⟨100, "Clear", 10, 10, 1000, 50, 0, 0, "Delhi"⟩,
           ⟨200, "Rain", 20, 20, 1000, 50, 0, 0, "Delhi"⟩] []) =
      aggregate_daily_weather 0
        [⟨100, "Clear", 10, 10, 1000, 50, 0, 0, "Delhi"⟩,
         ⟨200, "Rain", 20, 20, 1000, 50, 0, 0, "Delhi"⟩] [] ∧
    ((aggregate_daily_weather 0
        [⟨100, "Clear", 10, 10, 1000, 50, 0, 0, "Delhi"⟩,
         ⟨200, "Rain", 20, 20, 1000, 50, 0, 0, "Delhi"⟩] []).map rowKey).countP
      (fun x => decide (x = ("Delhi", 0))) = 1 := by
  have h := aggregate_daily_idempotent 0
    [⟨100, "Clear", 10, 10, 1000, 50, 0, 0, "Delhi"⟩,
     ⟨200, "Rain", 20, 20, 1000, 50, 0, 0, "Delhi"⟩] []
    (by simp [keyNodup])
  exact ⟨h.1, h.2 ("Delhi", 0) (by decide)⟩

end WeatherService
